import Mathlib

/-!
Verification of the morpheus adaptive prefetch controller core.

Shallow embedding of the C++ sources:
  - `src/engine/monitoring/trained_classifier.h` (TrainedPhaseClassifier)
  - `src/engine/monitoring/performance_monitor.{h,cpp}` (PerformanceSample,
    PerformanceMonitor)
  - `src/engine/adaptive_runtime.h` (AdaptiveRuntime)
  - `src/engine/prefetch/strided_prefetcher.h` (StridedPrefetcher)
  - `src/engine/prefetch/ima_prefetcher.h` (IMAPrefetcher)

C++ `double` values are modelled as exact rationals (`ℚ`); every decimal
literal the embedded code compares against is exactly representable, and
the concrete inputs evaluated below stay away from representation-sensitive
boundaries.  Machine addresses (`const void*` / `char*`) are modelled as
integers (`ℤ`), with pointer difference as integer subtraction.  Unsigned
64-bit counters are modelled as `ℕ`: no arithmetic in the embedded code can
wrap at the modelled call sites.  Calls to `_mm_prefetch` are modelled by
returning the list of hinted addresses.
-/

namespace Morpheus

/-- `ExecutionPhase` enum from `trained_classifier.h`. -/
inductive ExecutionPhase where
  | DenseSequential
  | SparseRandom
  | PointerChasing
  | Unknown
deriving DecidableEq, Repr

/-- `TrainedPhaseClassifier::classify` from `trained_classifier.h` lines 18-72:
guard on fewer than 7 features, then a fixed decision tree over
`features[0]` (l3_miss_rate), `features[1]` (ipc), `features[2]`
(branch_miss_rate). -/
def classify (features : List ℚ) : ExecutionPhase :=
  if features.length < 7 then
    ExecutionPhase.Unknown
  else
    let l3_miss_rate := features.getD 0 0
    let ipc := features.getD 1 0
    let branch_miss_rate := features.getD 2 0
    if l3_miss_rate ≤ 0.008 then
      if ipc ≤ 1.218 then
        if branch_miss_rate ≤ 0.043 then
          ExecutionPhase.SparseRandom
        else
          if l3_miss_rate ≤ 0.004 then
            ExecutionPhase.DenseSequential
          else
            ExecutionPhase.PointerChasing
      else
        if l3_miss_rate ≤ 0.003 then
          ExecutionPhase.DenseSequential
        else
          if branch_miss_rate ≤ 0.035 then
            ExecutionPhase.DenseSequential
          else
            ExecutionPhase.PointerChasing
    else
      if ipc ≤ 1.044 then
        if branch_miss_rate ≤ 0.052 then
          ExecutionPhase.SparseRandom
        else
          ExecutionPhase.PointerChasing
      else
        if l3_miss_rate ≤ 0.015 then
          ExecutionPhase.PointerChasing
        else
          ExecutionPhase.SparseRandom

/-- Modelled from the spec: the fixed decision tree of spec section 4.2,
written from the spec text as a function of the three features it branches
on.  Used only to compare `classify` against the spec's tree. -/
def specDecisionTree (l3_miss_rate ipc branch_miss_rate : ℚ) : ExecutionPhase :=
  if l3_miss_rate ≤ 0.008 then
    if ipc ≤ 1.218 then
      if branch_miss_rate ≤ 0.043 then ExecutionPhase.SparseRandom
      else if l3_miss_rate ≤ 0.004 then ExecutionPhase.DenseSequential
      else ExecutionPhase.PointerChasing
    else
      if l3_miss_rate ≤ 0.003 then ExecutionPhase.DenseSequential
      else if branch_miss_rate ≤ 0.035 then ExecutionPhase.DenseSequential
      else ExecutionPhase.PointerChasing
  else
    if ipc ≤ 1.044 then
      if branch_miss_rate ≤ 0.052 then ExecutionPhase.SparseRandom
      else ExecutionPhase.PointerChasing
    else
      if l3_miss_rate ≤ 0.015 then ExecutionPhase.PointerChasing
      else ExecutionPhase.SparseRandom

/-- `PerformanceSample` from `performance_monitor.h` lines 15-31.
Raw counters are `uint64_t`; the classified `phase` is filled by
`readCounters`. -/
structure PerformanceSample where
  timestamp_ns : ℕ
  instructions : ℕ
  cycles : ℕ
  l1_misses : ℕ
  l2_misses : ℕ
  l3_misses : ℕ
  branch_misses : ℕ
  phase : ExecutionPhase
deriving DecidableEq, Repr

namespace PerformanceSample

/-- `ipc()`: `cycles ? double(instructions)/cycles : 0.0`
(`performance_monitor.h` line 26). -/
def ipc (s : PerformanceSample) : ℚ :=
  if s.cycles ≠ 0 then (s.instructions : ℚ) / (s.cycles : ℚ) else 0

/-- `l1_miss_rate()`: `instructions ? double(l1_misses)/instructions : 0.0`
(`performance_monitor.h` line 27). -/
def l1_miss_rate (s : PerformanceSample) : ℚ :=
  if s.instructions ≠ 0 then (s.l1_misses : ℚ) / (s.instructions : ℚ) else 0

/-- `l2_miss_rate()` (`performance_monitor.h` line 28). -/
def l2_miss_rate (s : PerformanceSample) : ℚ :=
  if s.instructions ≠ 0 then (s.l2_misses : ℚ) / (s.instructions : ℚ) else 0

/-- `l3_miss_rate()` (`performance_monitor.h` line 29). -/
def l3_miss_rate (s : PerformanceSample) : ℚ :=
  if s.instructions ≠ 0 then (s.l3_misses : ℚ) / (s.instructions : ℚ) else 0

/-- `branch_miss_rate()` (`performance_monitor.h` line 30). -/
def branch_miss_rate (s : PerformanceSample) : ℚ :=
  if s.instructions ≠ 0 then (s.branch_misses : ℚ) / (s.instructions : ℚ) else 0

end PerformanceSample

/-- Modelled from the spec: `ipc = instructions/cycles` with the
"denominator floored at 1" rule of spec section 3, i.e.
`instructions / max(cycles, 1)`.  Used only to compare the source's
accessor against the spec's wording. -/
def specIpcFloored (s : PerformanceSample) : ℚ :=
  (s.instructions : ℚ) / ((max s.cycles 1 : ℕ) : ℚ)

/-- `PerformanceMonitor::extractFeatures` from `performance_monitor.cpp`
lines 189-204: empty result on empty history, otherwise a vector built
from the most recent sample (`samples_.back()`).  The source returns
exactly five entries. -/
def extractFeatures (samples : List PerformanceSample) : List ℚ :=
  match samples.getLast? with
  | none => []
  | some sample =>
      [sample.l3_miss_rate, sample.ipc, sample.branch_miss_rate,
       (sample.l1_misses : ℚ), (sample.l2_misses : ℚ)]

/-- The 7-entry feature vector that `PerformanceMonitor::readCounters`
(`performance_monitor.cpp` lines 167-175) builds from a sample and hands
to `TrainedPhaseClassifier::classify`; this is also the fixed order
`[l3_miss_rate, ipc, branch_miss_rate, l1_misses, l2_misses, instructions,
cycles]` that spec section 4.1 requires of `extractFeatures`. -/
def readCountersFeatures (s : PerformanceSample) : List ℚ :=
  [s.l3_miss_rate, s.ipc, s.branch_miss_rate,
   (s.l1_misses : ℚ), (s.l2_misses : ℚ), (s.instructions : ℚ), (s.cycles : ℚ)]

/-- `PerformanceMonitor::getCurrentPhase` from `performance_monitor.cpp`
lines 181-187: `Unknown` when no samples, else the last sample's phase. -/
def getCurrentPhase (samples : List PerformanceSample) : ExecutionPhase :=
  match samples.getLast? with
  | none => ExecutionPhase.Unknown
  | some s => s.phase

/-- `PerformanceMonitor::initialize` from `performance_monitor.cpp` lines
30-74, abstracted over the outcome of the six `openPerfEvent` calls
(`some fd` on success, `none` on failure): returns `true` immediately if
already initialized; otherwise collects the successfully opened
descriptors and returns `false` exactly when none could be opened. -/
def initializeMonitor (initialized : Bool) (openResults : List (Option ℕ)) : Bool :=
  if initialized then true
  else !(openResults.filterMap id).isEmpty

/-- A concrete sample whose 7-entry `readCountersFeatures` vector is the
first classifier golden vector `[0.002, 1.9, 0.015, 800, 300, 950000,
500000]`. -/
def sampleGolden1 : PerformanceSample :=
  { timestamp_ns := 0, instructions := 950000, cycles := 500000,
    l1_misses := 800, l2_misses := 300, l3_misses := 1900,
    branch_misses := 14250, phase := ExecutionPhase.Unknown }

/-- A concrete sample with `cycles == 0` and nonzero `instructions`,
separating the source's zero-denominator guard from the spec's
floored-denominator rule. -/
def sampleZeroCycles : PerformanceSample :=
  { timestamp_ns := 0, instructions := 5, cycles := 0,
    l1_misses := 0, l2_misses := 0, l3_misses := 0,
    branch_misses := 0, phase := ExecutionPhase.Unknown }

/-- `PerformanceCounters` from `adaptive_runtime.h` lines 355-368. -/
structure PerformanceCounters where
  cycles : ℕ
  instructions : ℕ
  l1_cache_hits : ℕ
  l1_cache_misses : ℕ
  l2_cache_hits : ℕ
  l2_cache_misses : ℕ
  l3_cache_hits : ℕ
  l3_cache_misses : ℕ
  branches : ℕ
  branch_misses : ℕ
  prefetch_attempts : ℕ
  prefetch_hits : ℕ
deriving DecidableEq, Repr

/-- `AdaptiveRuntime::PhaseMetrics` from `adaptive_runtime.h` lines 31-39. -/
structure PhaseMetrics where
  timestamp_ms : ℕ
  l1_hit_rate : ℚ
  l2_hit_rate : ℚ
  l3_hit_rate : ℚ
  instructions_per_cycle : ℚ
  branch_accuracy : ℚ
  prefetch_useful_rate : ℚ
deriving DecidableEq, Repr

/-- `AdaptiveRuntime::extractMetrics` from `adaptive_runtime.h` lines
197-223.  The three cache hit rates are written in the source as
`sample.x_cache_hits / (sample.x_cache_hits + sample.x_cache_misses + 1)`
with every operand of `uint64_t` type: C++ performs *integer* division and
only then converts the quotient to `double`, which the cast around the `ℕ`
division reproduces.  The remaining three fields cast the numerator to
`double` before dividing, so they are exact rational quotients. -/
def extractMetrics (sample : PerformanceCounters) (timestamp : ℕ) : PhaseMetrics :=
  { timestamp_ms := timestamp
    l1_hit_rate :=
      ((sample.l1_cache_hits / (sample.l1_cache_hits + sample.l1_cache_misses + 1) : ℕ) : ℚ)
    l2_hit_rate :=
      ((sample.l2_cache_hits / (sample.l2_cache_hits + sample.l2_cache_misses + 1) : ℕ) : ℚ)
    l3_hit_rate :=
      ((sample.l3_cache_hits / (sample.l3_cache_hits + sample.l3_cache_misses + 1) : ℕ) : ℚ)
    instructions_per_cycle :=
      (sample.instructions : ℚ) / ((sample.cycles + 1 : ℕ) : ℚ)
    branch_accuracy :=
      1 - (sample.branch_misses : ℚ) / ((sample.branches + 1 : ℕ) : ℚ)
    prefetch_useful_rate :=
      (sample.prefetch_hits : ℚ) / ((sample.prefetch_attempts + 1 : ℕ) : ℚ) }

/-- Modelled from the spec: hit rate `hits/(hits+misses+1)` (spec section
3) read as the real-valued quotient.  Used only to compare
`extractMetrics` against the spec's wording. -/
def specHitRate (hits misses : ℕ) : ℚ :=
  (hits : ℚ) / ((hits + misses + 1 : ℕ) : ℚ)

/-- Counters on which the real-valued L1 hit rate would be `9/10`. -/
def countersHit90 : PerformanceCounters :=
  { cycles := 0, instructions := 0,
    l1_cache_hits := 90, l1_cache_misses := 9,
    l2_cache_hits := 0, l2_cache_misses := 0,
    l3_cache_hits := 0, l3_cache_misses := 0,
    branches := 0, branch_misses := 0,
    prefetch_attempts := 0, prefetch_hits := 0 }

/-- `AdaptiveRuntime::ExecutionPhase` from `adaptive_runtime.h` lines
41-46 (distinct from the classifier's `ExecutionPhase` enum). -/
inductive AdaptivePhase where
  | UNKNOWN
  | DENSE_SEQUENTIAL
  | SPARSE_RANDOM
  | POINTER_CHASING
deriving DecidableEq, Repr

/-- `AdaptiveRuntime::computeAverageMetrics` from `adaptive_runtime.h`
lines 228-250: field-wise sum over the history divided by its length,
timestamp taken from the newest entry.  Only ever called by the source
with at least 10 entries in the history. -/
def computeAverageMetrics (history : List PhaseMetrics) : PhaseMetrics :=
  { timestamp_ms := ((history.getLast?).map PhaseMetrics.timestamp_ms).getD 0
    l1_hit_rate := (history.map PhaseMetrics.l1_hit_rate).sum / (history.length : ℚ)
    l2_hit_rate := (history.map PhaseMetrics.l2_hit_rate).sum / (history.length : ℚ)
    l3_hit_rate := (history.map PhaseMetrics.l3_hit_rate).sum / (history.length : ℚ)
    instructions_per_cycle :=
      (history.map PhaseMetrics.instructions_per_cycle).sum / (history.length : ℚ)
    branch_accuracy := (history.map PhaseMetrics.branch_accuracy).sum / (history.length : ℚ)
    prefetch_useful_rate :=
      (history.map PhaseMetrics.prefetch_useful_rate).sum / (history.length : ℚ) }

/-- `AdaptiveRuntime::detectExecutionPhase` from `adaptive_runtime.h`
lines 260-279. -/
def detectExecutionPhase (metrics : PhaseMetrics) : AdaptivePhase :=
  if metrics.l1_hit_rate > 0.85 then
    AdaptivePhase.DENSE_SEQUENTIAL
  else if metrics.l1_hit_rate > 0.50 ∧ metrics.prefetch_useful_rate > 0.6 then
    AdaptivePhase.SPARSE_RANDOM
  else if metrics.prefetch_useful_rate < 0.4 then
    AdaptivePhase.POINTER_CHASING
  else
    AdaptivePhase.SPARSE_RANDOM

/-- Modelled from the spec: the `Prefetcher` capability used by
`AdaptiveRuntime` is declared in `src/engine/prefetch/prefetcher_interface.h`,
which is missing from the repository snapshot (only this include and the
call sites `setPrefetchDistance` / `setPrefetchDegree` remain).  Per spec
section 4.3 a strategy carries a prefetch-distance and degree
configuration plus private predictive state, cleared only by `reset()`;
the two setters the runtime calls mutate only their named field. -/
structure PrefetcherIface where
  prefetch_distance : ℕ
  prefetch_degree : ℕ
  predictive_state : List ℤ
deriving DecidableEq, Repr

/-- Modelled from the spec: `setPrefetchDistance` setter of the missing
prefetcher interface. -/
def setPrefetchDistance (pf : PrefetcherIface) (d : ℕ) : PrefetcherIface :=
  { pf with prefetch_distance := d }

/-- Modelled from the spec: `setPrefetchDegree` setter of the missing
prefetcher interface. -/
def setPrefetchDegree (pf : PrefetcherIface) (d : ℕ) : PrefetcherIface :=
  { pf with prefetch_degree := d }

/-- `AdaptiveRuntime::updatePrefetchingStrategy` from `adaptive_runtime.h`
lines 284-321: early return on a null prefetcher, then a switch that sets
distance/degree per phase; the `default` (UNKNOWN) arm does nothing, and
no arm calls `reset()` or selects a different prefetcher object. -/
def updatePrefetchingStrategy (phase : AdaptivePhase)
    (pf : Option PrefetcherIface) : Option PrefetcherIface :=
  match pf with
  | none => none
  | some p =>
    match phase with
    | AdaptivePhase.DENSE_SEQUENTIAL => some (setPrefetchDegree (setPrefetchDistance p 256) 4)
    | AdaptivePhase.SPARSE_RANDOM => some (setPrefetchDegree (setPrefetchDistance p 128) 2)
    | AdaptivePhase.POINTER_CHASING => some (setPrefetchDegree (setPrefetchDistance p 64) 1)
    | AdaptivePhase.UNKNOWN => some p

/-- The mutable controller state of `AdaptiveRuntime` (`adaptive_runtime.h`
lines 144-148): current phase, adaptation counter, metrics history and the
attached prefetcher (`nullptr` modelled as `none`). -/
structure RuntimeState where
  current_phase : AdaptivePhase
  total_adaptations : ℕ
  metrics_history : List PhaseMetrics
  prefetcher : Option PrefetcherIface
deriving DecidableEq, Repr

/-- `AdaptiveRuntime::hintPhase` from `adaptive_runtime.h` lines 135-137:
forwards to `updatePrefetchingStrategy`; touches no other state. -/
def hintPhase (st : RuntimeState) (phase : AdaptivePhase) : RuntimeState :=
  { st with prefetcher := updatePrefetchingStrategy phase st.prefetcher }

/-- Append-then-evict step shared by the two bounded FIFO buffers in the
source (`metrics_history_.push_back` + `pop_front` past `history_size`,
`adaptive_runtime.h` lines 165-168; `recent_addresses_.push` + `pop` past
`HISTORY_SIZE`, `strided_prefetcher.h` lines 58 and 99-101). -/
def pushEvict (cap : ℕ) (h : List α) (x : α) : List α :=
  let h2 := h ++ [x]
  if cap < h2.length then h2.tail else h2

/-- The sampling-path history update of `AdaptiveRuntime::adaptationLoop`
(`adaptive_runtime.h` lines 165-168). -/
def pushMetric (history_size : ℕ) (history : List PhaseMetrics)
    (m : PhaseMetrics) : List PhaseMetrics :=
  pushEvict history_size history m

/-- The adaptation step of `AdaptiveRuntime::adaptationLoop`
(`adaptive_runtime.h` lines 174-186): with at least 10 history entries,
classify the window average and, on a phase change, reconfigure the
prefetcher, commit the new phase and bump the adaptation counter;
otherwise leave the state unchanged.  (The logging call on line 180 has no
bearing on the state.) -/
def adaptTick (st : RuntimeState) : RuntimeState :=
  if 10 ≤ st.metrics_history.length then
    if detectExecutionPhase (computeAverageMetrics st.metrics_history)
        ≠ st.current_phase then
      { st with
          prefetcher := updatePrefetchingStrategy
            (detectExecutionPhase (computeAverageMetrics st.metrics_history))
            st.prefetcher
          current_phase :=
            detectExecutionPhase (computeAverageMetrics st.metrics_history)
          total_adaptations := st.total_adaptations + 1 }
    else st
  else st

/-- A history entry whose L1 hit rate classifies as `DENSE_SEQUENTIAL`
under `detectExecutionPhase`. -/
def metricDense : PhaseMetrics :=
  { timestamp_ms := 0, l1_hit_rate := 0.9, l2_hit_rate := 0.8,
    l3_hit_rate := 0.7, instructions_per_cycle := 2,
    branch_accuracy := 0.95, prefetch_useful_rate := 0.5 }

/-- A controller state poised to transition `UNKNOWN →
DENSE_SEQUENTIAL`, whose attached prefetcher still carries predictive
state `[42]`. -/
def rtDensePoised : RuntimeState :=
  { current_phase := AdaptivePhase.UNKNOWN
    total_adaptations := 0
    metrics_history := List.replicate 10 metricDense
    prefetcher := some { prefetch_distance := 1, prefetch_degree := 1,
                         predictive_state := [42] } }

/-- `StridedPrefetcher` private state from `strided_prefetcher.h` lines
104-109: configuration, the detected stride (`0` = none) and the FIFO of
recent addresses (oldest first). -/
structure StridedState where
  prefetch_distance : ℕ
  cache_line_size : ℕ
  detected_stride : ℕ
  recent_addresses : List ℤ
deriving DecidableEq, Repr

/-- `StridedPrefetcher::HISTORY_SIZE` (`strided_prefetcher.h` line 109). -/
def HISTORY_SIZE : ℕ := 8

/-- Constructor state of `StridedPrefetcher` (`strided_prefetcher.h`
lines 14-17). -/
def stridedInit : StridedState :=
  { prefetch_distance := 1, cache_line_size := 64,
    detected_stride := 0, recent_addresses := [] }

/-- The consecutive pairwise deltas computed by
`StridedPrefetcher::detectStride` (`strided_prefetcher.h` lines 64-79). -/
def strideDeltas : List ℤ → List ℤ
  | a :: b :: rest => (b - a) :: strideDeltas (b :: rest)
  | _ => []

/-- The consistency test of `StridedPrefetcher::detectStride`
(`strided_prefetcher.h` lines 82-95): a non-empty delta list, every delta
equal to the first, and the first positive. -/
def consistentPositiveStride : List ℤ → Bool
  | [] => false
  | d :: rest => rest.all (fun x => x = d) && decide (0 < d)

/-- `StridedPrefetcher::detectStride` from `strided_prefetcher.h` lines
57-102: push the new address; below 8 buffered addresses return without
detecting; otherwise recompute the deltas over the buffered addresses,
adopt the common delta as the detected stride only when the deltas are
consistent and positive, and finally pop the oldest address when the
buffer exceeds 8. -/
def detectStride (st : StridedState) (addr : ℤ) : StridedState :=
  let recent := st.recent_addresses ++ [addr]
  if recent.length < HISTORY_SIZE then
    { st with recent_addresses := recent }
  else
    let strides := strideDeltas recent
    let detected :=
      if consistentPositiveStride strides then (strides.headD 0).toNat
      else st.detected_stride
    let recent2 := if HISTORY_SIZE < recent.length then recent.tail else recent
    { st with detected_stride := detected, recent_addresses := recent2 }

/-- `IMAPrefetcher::MAX_CHAIN_LENGTH` (`ima_prefetcher.h` line 68). -/
def MAX_CHAIN_LENGTH : ℕ := 4

/-- `IMAPrefetcher` private state from `ima_prefetcher.h` lines 63-68:
configuration and the successor map (`unordered_map`, modelled as a
function into `Option`; a key absent from the map is `none`). -/
structure IMAState where
  prefetch_distance : ℕ
  cache_line_size : ℕ
  pointer_chains : ℤ → Option (List ℤ)

/-- Constructor state of `IMAPrefetcher` (`ima_prefetcher.h` lines
13-15). -/
def imaInit : IMAState :=
  { prefetch_distance := 1, cache_line_size := 64,
    pointer_chains := fun _ => none }

/-- `IMAPrefetcher::learnPointerChain` from `ima_prefetcher.h` lines
50-61: `pointer_chains_[base]` default-constructs an empty list for a new
key; below the bound the target is appended, at the bound the oldest entry
is erased first. -/
def learnPointerChain (st : IMAState) (base_addr target_addr : ℤ) : IMAState :=
  let chain := (st.pointer_chains base_addr).getD []
  let chain2 :=
    if chain.length < MAX_CHAIN_LENGTH then chain ++ [target_addr]
    else chain.tail ++ [target_addr]
  { st with pointer_chains := fun a =>
      if a = base_addr then some chain2 else st.pointer_chains a }

/-- `IMAPrefetcher::prefetch` from `ima_prefetcher.h` lines 19-35,
returning the list of hinted addresses: the first
`min(chain.size, prefetch_distance)` entries of the learned successor
chain, or the next cache line when no chain exists for the address. -/
def prefetchIMA (st : IMAState) (addr : ℤ) : List ℤ :=
  match st.pointer_chains addr with
  | some chain => chain.take st.prefetch_distance
  | none => [addr + (st.cache_line_size : ℤ)]

end Morpheus

namespace Morpheus

/-- C1: `classify` returns `Unknown` on vectors shorter than 7 without
inspecting any field; on vectors of length at least 7 it computes exactly
the spec-4.2 decision tree over `features[0]`, `features[1]`,
`features[2]` (so the other four features are never branched on); and the
three golden vectors classify to `DenseSequential`, `SparseRandom` and
`PointerChasing` respectively. -/
theorem c1_classify_matches_spec_tree (fs : List ℚ) :
    (fs.length < 7 → classify fs = ExecutionPhase.Unknown)
    ∧ (7 ≤ fs.length →
        classify fs = specDecisionTree (fs.getD 0 0) (fs.getD 1 0) (fs.getD 2 0))
    ∧ classify [0.002, 1.9, 0.015, 800, 300, 950000, 500000]
        = ExecutionPhase.DenseSequential
    ∧ classify [0.025, 0.8, 0.028, 4500, 2500, 1100000, 1400000]
        = ExecutionPhase.SparseRandom
    ∧ classify [0.012, 0.95, 0.075, 1800, 900, 1000000, 1050000]
        = ExecutionPhase.PointerChasing := by
  refine ⟨fun h => ?_, fun h => ?_, by norm_num [classify], by norm_num [classify],
    by norm_num [classify]⟩
  · simp [classify, h]
  · rw [classify, if_neg (by omega)]
    rfl

/-- Witness for C1 at concrete inputs: a 3-element vector classifies to
`Unknown`, and on a concrete 7-element vector `classify` agrees with the
spec tree on the first three features. -/
theorem c1_classify_matches_spec_tree_witness :
    classify [(1 : ℚ), 2, 3] = ExecutionPhase.Unknown
    ∧ classify [0.002, 1.9, 0.015, 800, 300, 950000, 500000]
        = specDecisionTree 0.002 1.9 0.015 := by
  refine ⟨(c1_classify_matches_spec_tree [(1 : ℚ), 2, 3]).1 (by decide), ?_⟩
  have h := (c1_classify_matches_spec_tree
    [0.002, 1.9, 0.015, 800, 300, 950000, 500000]).2.1 (by decide)
  simpa using h

/-- C2 (code bug): on a non-empty history, `extractFeatures` returns a
5-element vector — `[l3_miss_rate, ipc, branch_miss_rate, l1_misses,
l2_misses]` of the most recent sample, with `instructions` and `cycles`
missing — not the 7-element vector the spec fixes; consequently the
classifier maps its output to `Unknown`, whereas the 7-entry vector built
inside `readCounters` for the same sample is exactly the first golden
vector and classifies to `DenseSequential`. -/
theorem c2_extract_features_truncated :
    extractFeatures [sampleGolden1]
      = [sampleGolden1.l3_miss_rate, sampleGolden1.ipc,
         sampleGolden1.branch_miss_rate,
         (sampleGolden1.l1_misses : ℚ), (sampleGolden1.l2_misses : ℚ)]
    ∧ (extractFeatures [sampleGolden1]).length = 5
    ∧ classify (extractFeatures [sampleGolden1]) = ExecutionPhase.Unknown
    ∧ readCountersFeatures sampleGolden1
        = [0.002, 1.9, 0.015, 800, 300, 950000, 500000]
    ∧ classify (readCountersFeatures sampleGolden1)
        = ExecutionPhase.DenseSequential := by
  have hfeat : readCountersFeatures sampleGolden1
      = [0.002, 1.9, 0.015, 800, 300, 950000, 500000] := by
    norm_num [readCountersFeatures, sampleGolden1, PerformanceSample.l3_miss_rate,
      PerformanceSample.ipc, PerformanceSample.branch_miss_rate]
  refine ⟨by simp [extractFeatures], by simp [extractFeatures], ?_, hfeat, ?_⟩
  · simp [extractFeatures, classify]
  · rw [hfeat]
    norm_num [classify]

/-- C4 (code bug): the windowed cache hit rates in `extractMetrics` are
computed with `uint64_t` *integer* division, so they are `0` for every
input (the numerator is always smaller than the `+1`-guarded denominator),
not the real-valued quotient `hits/(hits+misses+1)` the spec states; at
`l1_cache_hits = 90`, `l1_cache_misses = 9` the spec rate is `0.9` while
the code produces `0`.  Only `prefetch_useful_rate` (and the ipc /
branch-accuracy fields) cast before dividing. -/
theorem c4_hit_rate_integer_division :
    (extractMetrics countersHit90 0).l1_hit_rate = 0
    ∧ specHitRate 90 9 = 0.9
    ∧ (extractMetrics countersHit90 0).l1_hit_rate
        ≠ specHitRate countersHit90.l1_cache_hits countersHit90.l1_cache_misses
    ∧ (∀ (s : PerformanceCounters) (t : ℕ),
        (extractMetrics s t).l1_hit_rate = 0
        ∧ (extractMetrics s t).l2_hit_rate = 0
        ∧ (extractMetrics s t).l3_hit_rate = 0)
    ∧ (∀ (s : PerformanceCounters) (t : ℕ),
        (extractMetrics s t).prefetch_useful_rate
          = (s.prefetch_hits : ℚ) / ((s.prefetch_attempts : ℚ) + 1)) := by
  have hzero : ∀ h m : ℕ, (h / (h + m + 1) : ℕ) = 0 := fun h m =>
    Nat.div_eq_of_lt (by omega)
  refine ⟨by simp [extractMetrics, hzero], by norm_num [specHitRate], ?_,
    fun s t => ⟨by simp [extractMetrics, hzero], by simp [extractMetrics, hzero],
      by simp [extractMetrics, hzero]⟩,
    fun s t => by simp [extractMetrics]⟩
  simp only [extractMetrics, hzero, countersHit90]
  norm_num [specHitRate]

/-- C5 counterexample: the derived-rate accessors do *not* use a
denominator floored at 1 — on a sample with `instructions = 5`,
`cycles = 0` the source's `ipc()` returns `0`, while the claimed
`instructions / max(cycles, 1)` is `5`. -/
theorem c5_floored_denominator_cex :
    PerformanceSample.ipc sampleZeroCycles = 0
    ∧ specIpcFloored sampleZeroCycles = 5
    ∧ PerformanceSample.ipc sampleZeroCycles ≠ specIpcFloored sampleZeroCycles := by
  refine ⟨?_, ?_, ?_⟩ <;>
    norm_num [PerformanceSample.ipc, specIpcFloored, sampleZeroCycles]

/-- C5 amended: each derived-rate accessor returns the exact quotient when
its denominator is nonzero and `0` when the denominator is zero (a
zero-denominator guard, not a floored denominator); consequently all five
values are finite rationals and non-negative even when `instructions == 0`
or `cycles == 0`. -/
theorem c5_rates_zero_guarded (s : PerformanceSample) :
    (s.cycles ≠ 0 → s.ipc = (s.instructions : ℚ) / (s.cycles : ℚ))
    ∧ (s.cycles = 0 → s.ipc = 0)
    ∧ (s.instructions ≠ 0 →
        s.l1_miss_rate = (s.l1_misses : ℚ) / (s.instructions : ℚ)
        ∧ s.l2_miss_rate = (s.l2_misses : ℚ) / (s.instructions : ℚ)
        ∧ s.l3_miss_rate = (s.l3_misses : ℚ) / (s.instructions : ℚ)
        ∧ s.branch_miss_rate = (s.branch_misses : ℚ) / (s.instructions : ℚ))
    ∧ (s.instructions = 0 →
        s.l1_miss_rate = 0 ∧ s.l2_miss_rate = 0
        ∧ s.l3_miss_rate = 0 ∧ s.branch_miss_rate = 0)
    ∧ 0 ≤ s.ipc ∧ 0 ≤ s.l1_miss_rate ∧ 0 ≤ s.l2_miss_rate
    ∧ 0 ≤ s.l3_miss_rate ∧ 0 ≤ s.branch_miss_rate := by
  refine ⟨fun h => by simp [PerformanceSample.ipc, h],
    fun h => by simp [PerformanceSample.ipc, h],
    fun h => ⟨by simp [PerformanceSample.l1_miss_rate, h],
      by simp [PerformanceSample.l2_miss_rate, h],
      by simp [PerformanceSample.l3_miss_rate, h],
      by simp [PerformanceSample.branch_miss_rate, h]⟩,
    fun h => ⟨by simp [PerformanceSample.l1_miss_rate, h],
      by simp [PerformanceSample.l2_miss_rate, h],
      by simp [PerformanceSample.l3_miss_rate, h],
      by simp [PerformanceSample.branch_miss_rate, h]⟩,
    ?_, ?_, ?_, ?_, ?_⟩ <;>
  · simp only [PerformanceSample.ipc, PerformanceSample.l1_miss_rate,
      PerformanceSample.l2_miss_rate, PerformanceSample.l3_miss_rate,
      PerformanceSample.branch_miss_rate]
    split_ifs <;> positivity

/-- Witness for C5 amended at concrete samples: a nonzero-cycle sample's
ipc is the exact quotient, and the zero-cycle sample's ipc is `0`. -/
theorem c5_rates_zero_guarded_witness :
    PerformanceSample.ipc sampleGolden1 = (950000 : ℚ) / 500000
    ∧ PerformanceSample.ipc sampleZeroCycles = 0 := by
  constructor
  · have h := (c5_rates_zero_guarded sampleGolden1).1 (by decide)
    simpa [sampleGolden1] using h
  · exact (c5_rates_zero_guarded sampleZeroCycles).2.1 rfl

/-- C9: if none of the perf events can be opened, `initialize` returns
`false` (a boolean failure, not a fatal error), and a monitor with no
collected samples reports phase `Unknown`. -/
theorem c9_graceful_unavailable (openResults : List (Option ℕ))
    (h : ∀ r ∈ openResults, r = none) :
    initializeMonitor false openResults = false
    ∧ getCurrentPhase [] = ExecutionPhase.Unknown := by
  refine ⟨?_, rfl⟩
  have hnil : openResults.filterMap id = [] := by
    rw [List.filterMap_eq_nil_iff]
    exact h
  simp [initializeMonitor, hnil]

/-- Witness for C9: six failed event opens yield `initialize == false`. -/
theorem c9_graceful_unavailable_witness :
    initializeMonitor false [none, none, none, none, none, none] = false
    ∧ getCurrentPhase [] = ExecutionPhase.Unknown :=
  c9_graceful_unavailable [none, none, none, none, none, none] (by simp)

/-- C10: `hintPhase(Unknown)` leaves the whole controller state unchanged
(the strategy switch has no arm for `UNKNOWN`), and with no attached
prefetcher `hintPhase(p)` changes no state for any phase `p`. -/
theorem c10_hint_unknown_noop (st : RuntimeState) (p : AdaptivePhase) :
    hintPhase st AdaptivePhase.UNKNOWN = st
    ∧ (st.prefetcher = none → hintPhase st p = st) := by
  obtain ⟨cp, ta, mh, pf⟩ := st
  constructor
  · cases pf <;> rfl
  · intro h
    simp only at h
    subst h
    cases p <;> rfl

/-- Witness for C10: with no attached prefetcher, a
`DENSE_SEQUENTIAL` hint changes nothing. -/
theorem c10_hint_unknown_noop_witness :
    hintPhase ⟨AdaptivePhase.UNKNOWN, 0, [], none⟩ AdaptivePhase.DENSE_SEQUENTIAL
      = ⟨AdaptivePhase.UNKNOWN, 0, [], none⟩ :=
  (c10_hint_unknown_noop ⟨AdaptivePhase.UNKNOWN, 0, [], none⟩
    AdaptivePhase.DENSE_SEQUENTIAL).2 rfl

/-- One append-evict step preserves the capacity bound. -/
theorem pushEvict_length_le (cap : ℕ) (h : List α) (x : α)
    (hle : h.length ≤ cap) : (pushEvict cap h x).length ≤ cap := by
  simp only [pushEvict]
  split_ifs with hc <;> simp at hc ⊢ <;> omega

/-- One append-evict step maps a most-recent-`cap` suffix of `ys` to the
most-recent-`cap` suffix of `ys ++ [x]`. -/
theorem pushEvict_drop (cap : ℕ) (ys : List α) (x : α) :
    pushEvict cap (ys.drop (ys.length - cap)) x
      = (ys ++ [x]).drop (ys.length + 1 - cap) := by
  unfold pushEvict
  rcases le_or_lt cap ys.length with hc | hc
  · have hlen : (ys.drop (ys.length - cap)).length = cap := by
      simp
      omega
    rw [if_pos (by simp [hlen])]
    have hdrop : ys.drop (ys.length - cap) ++ [x]
        = (ys ++ [x]).drop (ys.length - cap) :=
      (List.drop_append_of_le_length (by omega)).symm
    rw [hdrop, List.tail_drop]
    congr 1
    omega
  · have h0 : ys.length - cap = 0 := by omega
    have h1 : ys.length + 1 - cap = 0 := by omega
    rw [h0, h1]
    simp only [List.drop_zero]
    rw [if_neg (by simp; omega)]

/-- Starting from an empty buffer, a sequence of append-evict steps leaves
exactly the most recent `cap` elements, in insertion order. -/
theorem foldl_pushEvict_drop (cap : ℕ) (xs : List α) :
    xs.foldl (pushEvict cap) [] = xs.drop (xs.length - cap) := by
  induction xs using List.reverseRecOn with
  | nil => simp
  | append_singleton ys x ih =>
      rw [List.foldl_append, List.foldl_cons, List.foldl_nil, ih, pushEvict_drop]
      simp

/-- C6: starting from an empty history, after any sequence of appended
samples the history length never exceeds the configured capacity, the
history is exactly the most recent `cap` entries in insertion order (so
after more than `cap` appends exactly the oldest entries have been
evicted), and one append at capacity evicts exactly the oldest entry. -/
theorem c6_history_capacity_fifo (cap : ℕ) (xs : List PhaseMetrics)
    (h : List PhaseMetrics) (m : PhaseMetrics) :
    (xs.foldl (pushMetric cap) []).length ≤ cap
    ∧ xs.foldl (pushMetric cap) [] = xs.drop (xs.length - cap)
    ∧ (h.length = cap → h ≠ [] → pushMetric cap h m = h.tail ++ [m]) := by
  have hfold : xs.foldl (pushMetric cap) [] = xs.drop (xs.length - cap) := by
    have : pushMetric cap = pushEvict cap := rfl
    rw [this, foldl_pushEvict_drop]
  refine ⟨?_, hfold, fun hlen hne => ?_⟩
  · rw [hfold]
    simp only [List.length_drop]
    omega
  · unfold pushMetric pushEvict
    rw [if_pos (by simp [hlen]), List.tail_append_of_ne_nil hne]

/-- Witness for C6: capacity 2, appending a third entry to a full history
of two evicts exactly the oldest. -/
theorem c6_history_capacity_fifo_witness :
    pushMetric 2 [metricDense, metricDense] metricDense
      = [metricDense, metricDense] := by
  have h := (c6_history_capacity_fifo 2 [] [metricDense, metricDense]
    metricDense).2.2 rfl (by simp)
  simpa using h

/-- The address window maintained by `detectStride` is exactly an
append-evict step on the previous window. -/
theorem detectStride_recent (st : StridedState) (a : ℤ) :
    (detectStride st a).recent_addresses
      = pushEvict HISTORY_SIZE st.recent_addresses a := by
  simp only [detectStride, pushEvict]
  split_ifs with h1 h2 <;> first | rfl | omega

/-- Feeding a sequence of addresses folds the append-evict step over the
window component. -/
theorem foldl_detectStride_recent (xs : List ℤ) (st : StridedState) :
    (List.foldl detectStride st xs).recent_addresses
      = List.foldl (pushEvict HISTORY_SIZE) st.recent_addresses xs := by
  induction xs generalizing st with
  | nil => rfl
  | cons a tl ih =>
      rw [List.foldl_cons, List.foldl_cons, ih, detectStride_recent]

/-- C7: feeding the 8 addresses `{0, 64, ..., 448}` (constant delta 64)
into a fresh strided prefetcher yields `detected_stride == 64`; from every
state, a call whose window deltas are not all equal and positive leaves
the previously detected stride (possibly `0`, i.e. none) unchanged; and
after any address sequence the window holds exactly the last
`HISTORY_SIZE = 8` observed addresses in arrival order. -/
theorem c7_strided_stride_detection (st : StridedState) (a : ℤ) (xs : List ℤ) :
    (List.foldl detectStride stridedInit
        [0, 64, 128, 192, 256, 320, 384, 448]).detected_stride = 64
    ∧ (consistentPositiveStride (strideDeltas (st.recent_addresses ++ [a])) = false →
        (detectStride st a).detected_stride = st.detected_stride)
    ∧ (List.foldl detectStride stridedInit xs).recent_addresses
        = xs.drop (xs.length - HISTORY_SIZE) := by
  refine ⟨by decide, fun hbad => ?_, ?_⟩
  · simp only [detectStride]
    split_ifs <;> simp_all
  · rw [foldl_detectStride_recent]
    have : stridedInit.recent_addresses = [] := rfl
    rw [this, foldl_pushEvict_drop]

/-- Witness for C7: with stride 64 already detected and a full window, one
call whose new delta is 52 (inconsistent window) leaves the detected
stride at 64. -/
theorem c7_strided_stride_detection_witness :
    (detectStride
        { prefetch_distance := 1, cache_line_size := 64, detected_stride := 64,
          recent_addresses := [64, 128, 192, 256, 320, 384, 448] }
        500).detected_stride = 64 :=
  (c7_strided_stride_detection
    { prefetch_distance := 1, cache_line_size := 64, detected_stride := 64,
      recent_addresses := [64, 128, 192, 256, 320, 384, 448] }
    500 []).2.1 (by decide)

/-- C8 counterexample: with prefetch distance 1 (at least 1, the
constructor default) and an earlier learned successor `100` for address
`0`, `learnPointerChain(0, 200)` followed by `prefetch(0)` hints only
`100` — `200` is *not* hinted, refuting "after `learnPointerChain(A, B)`,
`prefetch(A)` issues a hint for `B`" as a statement about every state. -/
theorem c8_hint_budget_cex :
    prefetchIMA (learnPointerChain (learnPointerChain imaInit 0 100) 0 200) 0
      = [100]
    ∧ (200 : ℤ) ∉
        prefetchIMA (learnPointerChain (learnPointerChain imaInit 0 100) 0 200) 0 := by
  constructor <;>
    simp [learnPointerChain, prefetchIMA, imaInit, MAX_CHAIN_LENGTH]

/-- C8 amended: after `learnPointerChain(A, B)` the target `B` is the
newest entry of `A`'s successor list and is hinted by `prefetch(A)`
whenever that list's length does not exceed the prefetch distance (in
particular whenever `A` had no previously learned successors); the
per-key successor list never grows beyond `MAX_CHAIN_LENGTH = 4` and
learning at the bound evicts exactly the oldest entry; hints for a learned
address are drawn only from its current successor list (so an evicted
address no longer occurs among the hints); and `prefetch` of an address
with no learned successor list hints exactly the next cache line. -/
theorem c8_ima_prefetcher (st : IMAState) (a b : ℤ) (chain : List ℤ) :
    (((learnPointerChain st a b).pointer_chains a).getD []).getLast? = some b
    ∧ ((((learnPointerChain st a b).pointer_chains a).getD []).length
          ≤ st.prefetch_distance →
        b ∈ prefetchIMA (learnPointerChain st a b) a)
    ∧ (((st.pointer_chains a).getD []).length ≤ MAX_CHAIN_LENGTH →
        (((learnPointerChain st a b).pointer_chains a).getD []).length
          ≤ MAX_CHAIN_LENGTH)
    ∧ (st.pointer_chains a = some chain → chain.length = MAX_CHAIN_LENGTH →
        (learnPointerChain st a b).pointer_chains a = some (chain.tail ++ [b]))
    ∧ (∀ c x, st.pointer_chains a = some c → x ∈ prefetchIMA st a → x ∈ c)
    ∧ (st.pointer_chains a = none →
        prefetchIMA st a = [a + (st.cache_line_size : ℤ)]) := by
  have hchain : (learnPointerChain st a b).pointer_chains a
      = some (if ((st.pointer_chains a).getD []).length < MAX_CHAIN_LENGTH
              then ((st.pointer_chains a).getD []) ++ [b]
              else ((st.pointer_chains a).getD []).tail ++ [b]) := by
    simp [learnPointerChain]
  refine ⟨?_, fun hlen => ?_, fun hbound => ?_, fun hsome hfull => ?_,
    fun c x hsome hx => ?_, fun hnone => ?_⟩
  · rw [hchain]
    split_ifs <;> simp [List.getLast?_concat]
  · have hdist : (learnPointerChain st a b).prefetch_distance
        = st.prefetch_distance := rfl
    have hmem : b ∈ ((learnPointerChain st a b).pointer_chains a).getD [] := by
      rw [hchain]
      split_ifs <;> simp
    simp only [prefetchIMA, hchain] at hlen ⊢
    rw [hchain] at hmem
    simp only [Option.getD_some] at hlen hmem
    rw [hdist, List.take_of_length_le hlen]
    exact hmem
  · rw [hchain]
    simp only [Option.getD_some, MAX_CHAIN_LENGTH] at hbound ⊢
    split_ifs with hlt <;>
      simp only [List.length_append, List.length_tail, List.length_cons,
        List.length_nil] <;> omega
  · rw [hchain, hsome]
    simp only [Option.getD_some]
    rw [if_neg (by simp [hfull])]
  · simp only [prefetchIMA, hsome] at hx
    exact List.mem_of_mem_take hx
  · simp [prefetchIMA, hnone]

/-- Witness for C8 amended: learning a single successor `100` for address
`0` on a fresh prefetcher (distance 1) makes `prefetch(0)` hint `100`, and
an unlearned address `7` is hinted at the next cache line `71`. -/
theorem c8_ima_prefetcher_witness :
    (100 : ℤ) ∈ prefetchIMA (learnPointerChain imaInit 0 100) 0
    ∧ prefetchIMA imaInit 7 = [71] := by
  constructor
  · exact (c8_ima_prefetcher imaInit 0 100 []).2.1
      (by simp [learnPointerChain, imaInit, MAX_CHAIN_LENGTH])
  · have h := (c8_ima_prefetcher imaInit 7 0 []).2.2.2.2.2 rfl
    simpa [imaInit] using h

/-- A tick with fewer than 10 history entries does nothing. -/
theorem adaptTick_eq_of_lt (st : RuntimeState)
    (h : st.metrics_history.length < 10) : adaptTick st = st := by
  unfold adaptTick
  rw [if_neg (by omega)]

/-- A tick whose classified phase equals the active phase does nothing. -/
theorem adaptTick_eq_of_same (st : RuntimeState)
    (h : detectExecutionPhase (computeAverageMetrics st.metrics_history)
        = st.current_phase) : adaptTick st = st := by
  unfold adaptTick
  split_ifs with h10 hne
  · exact absurd h hne
  · rfl
  · rfl

/-- A tick that observes a phase change commits the new phase, bumps the
adaptation counter and reconfigures the attached prefetcher, leaving the
history untouched. -/
theorem adaptTick_eq_of_ne (st : RuntimeState)
    (h10 : 10 ≤ st.metrics_history.length)
    (hne : detectExecutionPhase (computeAverageMetrics st.metrics_history)
        ≠ st.current_phase) :
    adaptTick st = { st with
      prefetcher := updatePrefetchingStrategy
        (detectExecutionPhase (computeAverageMetrics st.metrics_history))
        st.prefetcher
      current_phase :=
        detectExecutionPhase (computeAverageMetrics st.metrics_history)
      total_adaptations := st.total_adaptations + 1 } := by
  unfold adaptTick
  rw [if_pos h10, if_pos hne]

/-- Ticks are idempotent on unchanged history: a second tick observes the
phase it just committed and does nothing. -/
theorem adaptTick_idem (st : RuntimeState) :
    adaptTick (adaptTick st) = adaptTick st := by
  by_cases h10 : 10 ≤ st.metrics_history.length
  · by_cases hne : detectExecutionPhase (computeAverageMetrics st.metrics_history)
        ≠ st.current_phase
    · rw [adaptTick_eq_of_ne st h10 hne]
      exact adaptTick_eq_of_same _ rfl
    · push_neg at hne
      rw [adaptTick_eq_of_same st hne]
      exact adaptTick_eq_of_same st hne
  · push_neg at h10
    rw [adaptTick_eq_of_lt st h10]
    exact adaptTick_eq_of_lt st h10

/-- The poised state's window average classifies as `DENSE_SEQUENTIAL`
(its average L1 hit rate is 0.9 > 0.85). -/
theorem detect_rtDensePoised :
    detectExecutionPhase (computeAverageMetrics rtDensePoised.metrics_history)
      = AdaptivePhase.DENSE_SEQUENTIAL := by
  norm_num [rtDensePoised, metricDense, computeAverageMetrics,
    detectExecutionPhase, List.map_replicate, List.sum_replicate, nsmul_eq_mul]

/-- C3 amended: a tick with fewer than 10 samples leaves the state
unchanged; with at least 10, if the phase classified from the window
average equals the active phase the whole state is unchanged, and if it
differs the active phase becomes the classified one, the adaptation
counter grows by exactly 1, the history is untouched and the single
attached prefetcher is reconfigured per the fixed table (DenseSequential:
distance 256 / degree 4, SparseRandom: 128 / 2, PointerChasing: 64 / 1) —
its predictive state is *not* reset and no per-phase prefetcher object is
selected; a repeated tick on the same history adapts no further; and from
`UNKNOWN` with zero adaptations, a window average classifying as
`DENSE_SEQUENTIAL` yields exactly one transition with
`totalAdaptations == 1` and configuration `(256, 4)`. -/
theorem c3_adaptation_tick (st : RuntimeState) (pf : PrefetcherIface) :
    (st.metrics_history.length < 10 → adaptTick st = st)
    ∧ (detectExecutionPhase (computeAverageMetrics st.metrics_history)
          = st.current_phase → adaptTick st = st)
    ∧ (10 ≤ st.metrics_history.length →
        detectExecutionPhase (computeAverageMetrics st.metrics_history)
          ≠ st.current_phase →
        (adaptTick st).current_phase
            = detectExecutionPhase (computeAverageMetrics st.metrics_history)
        ∧ (adaptTick st).total_adaptations = st.total_adaptations + 1
        ∧ (adaptTick st).metrics_history = st.metrics_history
        ∧ (adaptTick st).prefetcher
            = updatePrefetchingStrategy
                (detectExecutionPhase (computeAverageMetrics st.metrics_history))
                st.prefetcher)
    ∧ updatePrefetchingStrategy AdaptivePhase.DENSE_SEQUENTIAL (some pf)
        = some { pf with prefetch_distance := 256, prefetch_degree := 4 }
    ∧ updatePrefetchingStrategy AdaptivePhase.SPARSE_RANDOM (some pf)
        = some { pf with prefetch_distance := 128, prefetch_degree := 2 }
    ∧ updatePrefetchingStrategy AdaptivePhase.POINTER_CHASING (some pf)
        = some { pf with prefetch_distance := 64, prefetch_degree := 1 }
    ∧ adaptTick (adaptTick st) = adaptTick st
    ∧ (st.current_phase = AdaptivePhase.UNKNOWN → st.total_adaptations = 0 →
        10 ≤ st.metrics_history.length →
        detectExecutionPhase (computeAverageMetrics st.metrics_history)
          = AdaptivePhase.DENSE_SEQUENTIAL →
        st.prefetcher = some pf →
        (adaptTick st).total_adaptations = 1
        ∧ (adaptTick st).current_phase = AdaptivePhase.DENSE_SEQUENTIAL
        ∧ (adaptTick st).prefetcher
            = some { pf with prefetch_distance := 256, prefetch_degree := 4 }) := by
  refine ⟨adaptTick_eq_of_lt st, adaptTick_eq_of_same st, fun h10 hne => ?_,
    rfl, rfl, rfl, adaptTick_idem st, fun hcp hta h10 hdet hpf => ?_⟩
  · rw [adaptTick_eq_of_ne st h10 hne]
    exact ⟨rfl, rfl, rfl, rfl⟩
  · have hne : detectExecutionPhase (computeAverageMetrics st.metrics_history)
        ≠ st.current_phase := by
      rw [hdet, hcp]
      simp
    rw [adaptTick_eq_of_ne st h10 hne]
    refine ⟨by simp [hta], by simp [hdet], ?_⟩
    simp [hdet, hpf, updatePrefetchingStrategy, setPrefetchDistance,
      setPrefetchDegree]

/-- Witness for C3 amended: on the poised state (10 history entries
averaging to a `DENSE_SEQUENTIAL` classification, active phase `UNKNOWN`,
zero adaptations) one tick yields `totalAdaptations == 1`, phase
`DENSE_SEQUENTIAL` and configuration `(distance=256, degree=4)`. -/
theorem c3_adaptation_tick_witness :
    (adaptTick rtDensePoised).total_adaptations = 1
    ∧ (adaptTick rtDensePoised).current_phase = AdaptivePhase.DENSE_SEQUENTIAL
    ∧ (adaptTick rtDensePoised).prefetcher
        = some { prefetch_distance := 256, prefetch_degree := 4,
                 predictive_state := [42] } :=
  (c3_adaptation_tick rtDensePoised
      { prefetch_distance := 1, prefetch_degree := 1, predictive_state := [42] }
    ).2.2.2.2.2.2.2 rfl rfl (by decide) detect_rtDensePoised rfl

/-- C3 counterexample: on the poised state the `UNKNOWN →
DENSE_SEQUENTIAL` transition reconfigures distance/degree but the
prefetcher's predictive state `[42]` survives the switch — it is not
reset, contradicting "the Prefetcher mapped to the new phase is selected
with its predictive state reset". -/
theorem c3_predictive_not_reset_cex :
    (adaptTick rtDensePoised).prefetcher
      = some { prefetch_distance := 256, prefetch_degree := 4,
               predictive_state := [42] }
    ∧ ((adaptTick rtDensePoised).prefetcher.map PrefetcherIface.predictive_state)
        ≠ some [] := by
  have hne : detectExecutionPhase (computeAverageMetrics
      rtDensePoised.metrics_history) ≠ rtDensePoised.current_phase := by
    rw [detect_rtDensePoised]
    decide
  rw [adaptTick_eq_of_ne rtDensePoised (by decide) hne]
  refine ⟨?_, ?_⟩
  · show updatePrefetchingStrategy
        (detectExecutionPhase (computeAverageMetrics rtDensePoised.metrics_history))
        rtDensePoised.prefetcher
      = some { prefetch_distance := 256, prefetch_degree := 4,
               predictive_state := [42] }
    rw [detect_rtDensePoised]
    rfl
  · show (updatePrefetchingStrategy
        (detectExecutionPhase (computeAverageMetrics rtDensePoised.metrics_history))
        rtDensePoised.prefetcher).map PrefetcherIface.predictive_state ≠ some []
    rw [detect_rtDensePoised]
    decide

end Morpheus
